import Mathlib

/-!
Verification of the survey-generation pipeline of
`api/db/services/paper_search_service.py` and its request layer
`api/apps/paper_search_app.py`.

The relational rows touched by the pipeline are modelled as Lean structures,
the table of survey records as a list of rows, and each service function as a
Lean function over that state.  External collaborators (the chat model, the
retrieval backend, document-content reassembly, the docx renderer) are passed
in as explicit oracle arguments: an `Except` result models a call that may
raise, a plain function models a call whose Python wrapper already catches all
exceptions and degrades.
-/

namespace CosmoSearch

/-- One row of the PaperSurveyRecord table, with the fields this pipeline
reads and writes (`created_at`/`updated_at` bookkeeping is not modelled).
`progress` is the 0.0–1.0 fraction, or the −1 cancellation sentinel. -/
structure PaperSurveyRecord where
  id : String
  tenant_id : String
  user_id : String
  search_record_id : String
  survey_content : String
  survey_title : String
  status : String
  progress : ℚ
  progress_msg : String
  task_id : String
deriving Repr, DecidableEq

/-- The PaperSurveyRecord table. -/
abbrev SurveyDb := List PaperSurveyRecord

/-- A paper dict as produced by `search_papers` and frozen into the survey
job's payload. -/
structure Paper where
  uid : String
  title : String
  abstract : String
  source : String
  selected : Bool
  similarity : ℚ
  doc_id : String
  kb_id : String
  full_content : String
deriving Repr, DecidableEq

/-- Status of the row with the given id, if present. -/
def statusOf (db : SurveyDb) (id : String) : Option String :=
  (db.find? (fun r => r.id == id)).map (fun r => r.status)

/-- Progress of the row with the given id, if present. -/
def progressOf (db : SurveyDb) (id : String) : Option ℚ :=
  (db.find? (fun r => r.id == id)).map (fun r => r.progress)

/-- The row-level write of
`PaperSurveyRecord.update(survey_content=..., status="completed")`
(paper_search_service.py line 434). -/
def applyCompleted (id content : String) (r : PaperSurveyRecord) : PaperSurveyRecord :=
  if r.id = id then { r with survey_content := content, status := "completed" } else r

/-- The row-level write of `PaperSurveyRecord.update(status="failed")`
(paper_search_service.py line 439). -/
def applyFailed (id : String) (r : PaperSurveyRecord) : PaperSurveyRecord :=
  if r.id = id then { r with status := "failed" } else r

/-- The row-level write of the cancel endpoint
`PaperSurveyRecord.update(status="cancelled", progress=-1, progress_msg="任务已取消", ...)`
(paper_search_app.py line 299). -/
def applyCancel (id : String) (r : PaperSurveyRecord) : PaperSurveyRecord :=
  if r.id = id then { r with status := "cancelled", progress := -1, progress_msg := "任务已取消" } else r

/-- A write against the PaperSurveyRecord table performed by the code under
study.  `create` records a successful `PaperSurveyRecord.create`; the update
constructors record the three `update(...).where(id)` statements that appear
in the worker path and in the cancel endpoint. -/
inductive DbOp where
  | create (r : PaperSurveyRecord)
  | updateCompleted (id content : String)
  | updateFailed (id : String)
  | cancelUpdate (id : String)
deriving Repr, DecidableEq

/-- Effect of one write on the table. -/
def DbOp.apply (db : SurveyDb) : DbOp → SurveyDb
  | .create r => db ++ [r]
  | .updateCompleted id content => db.map (applyCompleted id content)
  | .updateFailed id => db.map (applyFailed id)
  | .cancelUpdate id => db.map (applyCancel id)

/-- `generate_paper_summary` (paper_search_service.py lines 313–369).
`summaryOracle title content` is the chat call on the brief prompt built from
the title and the first 4000 characters of the available content; the Python
code catches every exception from it and falls back to a title/abstract
brief, so the function is total.  The content choice mirrors
`paper.get("full_content", "") or paper.get("abstract", "")`. -/
def generate_paper_summary (summaryOracle : String → String → Except String String)
    (p : Paper) : String :=
  let content := if p.full_content = "" then p.abstract else p.full_content
  match summaryOracle p.title (content.take 4000) with
  | .ok s => s
  | .error _ => "标题: " ++ p.title ++ "\n摘要: " ++ p.abstract

/-- The full-content backfill loop of `generate_survey` (lines 382–390):
`_get_full_document_content` catches internally and returns `""` on failure,
and the paper is only updated when a non-empty content comes back. -/
def fillFullContent (contentOracle : String → String) (p : Paper) : Paper :=
  if p.full_content = "" then
    let fc := contentOracle p.doc_id
    if fc = "" then p else { p with full_content := fc }
  else p

/-- Result of one run of `generate_survey`: the table afterwards, the ordered
list of writes it performed on the PaperSurveyRecord table, the number of
chat-model calls it attempted, and the returned value or propagated
exception. -/
structure SurveyRunResult where
  db : SurveyDb
  ops : List DbOp
  llmCalls : ℕ
  outcome : Except String String
deriving Repr

/-- `generate_survey` (paper_search_service.py lines 372–442).

The function first executes `PaperSurveyRecord.create(**survey_record)`
*outside* its try block.  Modelled from the spec: `db_models.py` is not part
of the sources, and the spec's data model makes the job id an opaque unique
identifier under relational storage, so inserting a row whose id already
exists fails (an integrity error) without touching the table; that exception
propagates to the caller before any other work.

Inside the try block it backfills full content (internally caught), builds
one brief per paper (internally caught; one chat attempt each), builds the
synthesis prompt from the briefs and performs one chat call — `synthOracle`
receives the (title, summary) pairs the prompt is built from and stands for
everything in the try block that can raise.  On success it writes
`survey_content` and `status="completed"`; on any exception it writes
`status="failed"` and re-raises.  No cancellation or current-status check is
performed anywhere, and the loop over papers performs no table writes. -/
def generate_survey (db : SurveyDb) (sr : PaperSurveyRecord) (papers : List Paper)
    (contentOracle : String → String)
    (summaryOracle : String → String → Except String String)
    (synthOracle : List (String × String) → Except String String) : SurveyRunResult :=
  if db.any (fun x => x.id == sr.id) then
    { db := db, ops := [], llmCalls := 0,
      outcome := .error "IntegrityError: duplicate survey id" }
  else
    let db1 := db ++ [sr]
    let updated := papers.map (fillFullContent contentOracle)
    let summaries := updated.map (fun p => (p.title, generate_paper_summary summaryOracle p))
    match synthOracle summaries with
    | .ok content =>
        { db := DbOp.apply db1 (.updateCompleted sr.id content),
          ops := [.create sr, .updateCompleted sr.id content],
          llmCalls := papers.length + 1, outcome := .ok content }
    | .error e =>
        { db := DbOp.apply db1 (.updateFailed sr.id),
          ops := [.create sr, .updateFailed sr.id],
          llmCalls := papers.length + 1, outcome := .error e }

/-- Result of the cancel endpoint. -/
inductive CancelResult where
  | ok
  | notFound
  | badStatus (s : String)
deriving Repr, DecidableEq

/-- `cancel_survey` (paper_search_app.py lines 278–306): look the record up by
id *and* requesting user; missing row → "not found"; a status outside
pending/processing is refused; otherwise the cancelled/−1 write is issued.
(The companion `TaskService.update_progress` write on the Task row is outside
the survey table and not modelled.) -/
def cancel_survey (db : SurveyDb) (survey_id user_id : String) : CancelResult × SurveyDb :=
  match db.find? (fun r => r.id == survey_id && r.user_id == user_id) with
  | none => (.notFound, db)
  | some survey =>
      if survey.status = "pending" ∨ survey.status = "processing" then
        (.ok, DbOp.apply db (.cancelUpdate survey_id))
      else
        (.badStatus survey.status, db)

/-- The dict returned by `PaperSearchService.get_survey`
(paper_search_service.py lines 496–511); `created_at` is not modelled. -/
structure GetSurveyResult where
  id : String
  tenant_id : String
  user_id : String
  search_record_id : String
  survey_content : String
  survey_title : String
  status : String
deriving Repr, DecidableEq

/-- `get_survey` (paper_search_service.py lines 496–511): a plain lookup by
id alone — the function receives no requester identity and applies no
ownership filter; `DoesNotExist` is caught and turned into `none`.  The route
(paper_search_app.py lines 209–220) passes only the path id and returns
whatever this yields to any authenticated caller. -/
def get_survey (db : SurveyDb) (survey_id : String) : Option GetSurveyResult :=
  (db.find? (fun r => r.id == survey_id)).map fun s =>
    { id := s.id, tenant_id := s.tenant_id, user_id := s.user_id,
      search_record_id := s.search_record_id, survey_content := s.survey_content,
      survey_title := s.survey_title, status := s.status }

/-- `delete_survey_record` (paper_search_service.py lines 610–621): fetch by
id + owning user + tenant; a missing match (the `DoesNotExist` path) returns
`False` with the table untouched, otherwise the row is deleted and `True`
returned.  No status condition appears anywhere in the service or in the
route (paper_search_app.py lines 389–411). -/
def delete_survey_record (db : SurveyDb) (survey_id user_id tenant_id : String) :
    Bool × SurveyDb :=
  match db.find? (fun r => r.id == survey_id && r.user_id == user_id && r.tenant_id == tenant_id) with
  | none => (false, db)
  | some _ => (true, db.filter (fun r => r.id != survey_id))

/-- One row of the Task table as built by `queue_survey_task`
(paper_search_service.py lines 456–467); `begin_at` is not modelled. -/
structure TaskRec where
  id : String
  doc_id : String
  from_page : ℕ
  to_page : ℕ
  task_type : String
  priority : ℤ
  progress : ℚ
  progress_msg : String
deriving Repr, DecidableEq

/-- The Task dict of lines 457–467: doc_id carries the survey id, to_page the
paper count, and the progress message is the creation timestamp followed by
the fixed text. -/
def newSurveyTask (taskId ts : String) (sr : PaperSurveyRecord) (papers : List Paper)
    (priority : ℤ) : TaskRec :=
  { id := taskId, doc_id := sr.id, from_page := 0, to_page := papers.length,
    task_type := "paper_survey", priority := priority, progress := 0,
    progress_msg := ts ++ " 任务已创建，等待处理" }

/-- The survey-row update of lines 473–475: attach the task id and reset the
record to a pending state. -/
def queuePendingUpdate (taskId : String) (r : PaperSurveyRecord) : PaperSurveyRecord :=
  { r with task_id := taskId, status := "pending", progress := 0, progress_msg := "等待处理" }

/-- The state `queue_survey_task` operates on: the Task table, the
PaperSurveyRecord table, and the Redis queue (each queued WorkItem named by
its task id; the payload snapshot is opaque here). -/
structure QueueState where
  tasks : List TaskRec
  surveys : SurveyDb
  queue : List String
deriving Repr, DecidableEq

/-- `queue_survey_task` (paper_search_service.py lines 445–493): insert the
Task row, set the survey row pending with the task id, then push to Redis.
`redisOk` is the boolean result of `REDIS_CONN.queue_product`; when it is
false the function raises after both database writes have already been made —
there is no rollback branch. -/
def queue_survey_task (redisOk : Bool) (taskId ts : String) (st : QueueState)
    (sr : PaperSurveyRecord) (papers : List Paper) (priority : ℤ) :
    Except String String × QueueState :=
  let task := newSurveyTask taskId ts sr papers priority
  let tasks1 := st.tasks ++ [task]
  let surveys1 := st.surveys.map (fun r => if r.id = sr.id then queuePendingUpdate taskId r else r)
  if redisOk then
    (.ok taskId, { tasks := tasks1, surveys := surveys1, queue := st.queue ++ [taskId] })
  else
    (.error "无法访问 Redis，请检查 Redis 状态", { tasks := tasks1, surveys := surveys1, queue := st.queue })

/-- The five-list keyword payload returned by `extract_keywords` (JSON
serialization of it into the record's text column is abstracted: the record
field below stores the bundle itself). -/
structure KeywordBundle where
  keyword_en : List String
  keyword_cn : List String
  searchquery_en : List String
  searchquery_cn : List String
  time_range : List String
deriving Repr, DecidableEq

/-- A retrieval chunk, with the fields `search_papers` reads. -/
structure Chunk where
  doc_id : String
  content_with_weight : String
  similarity : ℚ
  kb_id : String
deriving Repr, DecidableEq

/-- Document metadata as fetched by `DocumentService.get_by_id`; `none`
models the `doc_info and doc_info[0] and doc_info[1]` guard failing. -/
structure DocInfo where
  id : String
  name : String
deriving Repr, DecidableEq

/-- One row of the PaperSearchRecord table. -/
structure SearchRecordRow where
  id : String
  tenant_id : String
  user_id : String
  query : String
  keywords : Option KeywordBundle
  search_results : List Paper
  result_count : ℕ
deriving Repr, DecidableEq

/-- The paper dict built from a surviving chunk (paper_search_service.py
lines 138–147). -/
def chunkToPaper (c : Chunk) (doc : DocInfo) : Paper :=
  { uid := doc.id, title := doc.name, abstract := c.content_with_weight.take 500,
    source := "RAGFlow知识库", selected := true, similarity := c.similarity,
    doc_id := c.doc_id, kb_id := c.kb_id, full_content := "" }

/-- The chunk-processing loop (lines 123–149): keep the first chunk per
`doc_id` (`processed_docs` is the `seen` accumulator), drop a candidate
whose document lookup fails, and materialize the rest in order. -/
def processChunks (docLookup : String → Option DocInfo) :
    List Chunk → List String → List Paper
  | [], _ => []
  | c :: rest, seen =>
      if c.doc_id ∈ seen then
        processChunks docLookup rest seen
      else
        match docLookup c.doc_id with
        | some doc => chunkToPaper c doc :: processChunks docLookup rest (c.doc_id :: seen)
        | none => processChunks docLookup rest (c.doc_id :: seen)

/-- The dict `search_papers` returns (line 165). -/
structure SearchResult where
  search_record_id : String
  papers : List Paper
  keywords : KeywordBundle
deriving Repr, DecidableEq

/-- The retrieval stage of `search_papers` (paper_search_service.py lines
75–157): the knowledge-base scope is the tenant's own bases plus all public
ones; an empty union skips retrieval with an empty paper list; otherwise the
whole embedding-model/retrieval block runs under a `try/except` that turns
any exception into an empty paper list (`retrOracle = .error` models that
case), and successful chunks flow through `processChunks`. -/
def retrievedPapers (userKbIds publicKbIds : List String)
    (retrOracle : Except String (List Chunk))
    (docLookup : String → Option DocInfo) : List Paper :=
  if (userKbIds ++ publicKbIds).isEmpty then []
  else
    match retrOracle with
    | .error _ => []
    | .ok chunks => processChunks docLookup chunks []

/-- `search_papers` (paper_search_service.py lines 46–165), from the point
where the keyword bundle `kw` has been produced (`extract_keywords` is
total: every exception inside it is caught and mapped to a deterministic
fallback bundle, so the extraction stage always yields one).  The keywords
are persisted on the search record first, the retrieval stage runs (see
`retrievedPapers`), then results and their count are persisted and the
keywords returned alongside the papers. -/
def search_papers (kw : KeywordBundle) (userKbIds publicKbIds : List String)
    (retrOracle : Except String (List Chunk)) (docLookup : String → Option DocInfo)
    (row : SearchRecordRow) : SearchResult × SearchRecordRow :=
  let row1 := { row with keywords := some kw }
  let papers := retrievedPapers userKbIds publicKbIds retrOracle docLookup
  let row2 := { row1 with search_results := papers, result_count := papers.length }
  ({ search_record_id := row.id, papers := papers, keywords := kw }, row2)

/-- Whether an `Except` carries a success (a Python call that returned rather
than raised). -/
def exOk {α : Type} : Except String α → Bool
  | .ok _ => true
  | .error _ => false

/-- The keyword-count clamp of paper_search_service.py line 633:
`keywords_num = keywords_num if 12 >= keywords_num > 1 else 5`. -/
def normalizeKeywordsNum (keywords_num : ℤ) : ℤ :=
  if 12 ≥ keywords_num ∧ keywords_num > 1 then keywords_num else 5

/-- The extraction instruction prompt of lines 636–663, with the two keyword
counts and the query count interpolated exactly where the f-string places
them (the doubled braces of the f-string are the literal braces written
`\x7b`/`\x7d` here). -/
def buildKeywordPrompt (kn qn : ℤ) : String :=
  "\n请根据用户的输入推断用户感兴趣的研究方向，并输出" ++ toString kn
    ++ "个最贴近用户需求的关键词。你需要将这些关键词以JSON格式直接输出，不需要任何额外说明，格式为\n  \x7b\"keyword_en\": [ 英文关键字 ], \"keyword_cn\": [对应的中文关键字], \"searchquery_en\" : [ 英文搜索句 ], \"searchquery_cn\" : [中文搜索句], \"time_range\": [\"2025\", \"2024\", \"2023\"] \x7d。\n注意以下几点：\n1. 关键词需要准确反映用户输入的主题。\n2. 确保输出结果严格遵循指定的JSON格式。\n3. 输出中不得包含任何XML标签。\n4. 时间范围识别：根据用户描述的时间要求，输出年份数组，默认为空数组[]。\n\n完成任务的步骤如下：\n- 首先，仔细阅读和分析用户输入的内容，识别出核心主题或研究方向，关键词必须在该领域内。\n- 其次，根据识别出的主题，提取出" ++ toString kn
    ++ "个紧密相关的关键词，确保同时提供英文和中文版本。\n- 然后，根据关键词和用户旨意提出 " ++ toString qn
    ++ "个可以用于检索论文的搜索句子，确保同时提供英文和中文版本\n- 识别时间范围：\n  * 如果用户提到\"近三年\"、\"最近三年\"，输出[\"2025\", \"2024\", \"2023\"]\n  * 如果用户提到\"近五年\"、\"最近五年\"，输出[\"2025\", \"2024\", \"2023\", \"2022\", \"2021\"]\n  * 如果用户提到\"2020年以后\"、\"2020年后\"，输出[\"2025\", \"2024\", \"2023\", \"2022\", \"2021\"]\n  * 如果用户提到具体年份如\"2023年\"，输出[\"2023\"]\n  * 如果用户提到年份范围如\"2022-2024\"，输出[\"2022\", \"2023\", \"2024\"]\n  * 如果用户没有提到时间要求，输出[]\n- 最后，按照指定的JSON格式组织输出内容，确保格式正确无误。\n\n如果用户输入的内容不够明确，请基于常见的研究领域进行合理推测。\n\n示例：\n用户输入：我对人工智能在医疗领域的应用很感兴趣，特别是如何利用深度学习技术进行疾病诊断，希望了解近三年的研究进展。\n输出：\x7b\"keyword_en\": [\"Artificial Intelligence\",\"Medical Applications\",\"Deep Learning\",\"Disease Diagnosis\",\"Healthcare\"], \"keyword_cn\": [\"人工智能\",\"医疗应用\",\"深度学习\",\"疾病诊断\",\"医疗保健\"] , \"searchquery_en\": [\"Deep Learning Applications in Disease Diagnosis\", \"Innovations of Artificial Intelligence in Healthcare\", \"Artificial Intelligence-based Disease Diagnosis Technologies\", \"Challenges and Opportunities of Deep Learning in Healthcare\"], \"searchquery_cn\" : [ \"深度学习在疾病诊断中的应用\", \"人工智能在医疗保健中的创新\", \"基于人工智能的疾病诊断技术\" ], \"time_range\": [\"2025\", \"2024\", \"2023\"]\x7d\n"

/-- The prompt `extract_keywords` (lines 624–663) builds: the keyword count
is clamped first (line 633), then `query_num = query_num if query_num else
keywords_num` (line 634, Python truthiness on an int), and both are
interpolated into the instruction text. -/
def extract_keywords_prompt (keywords_num query_num : ℤ) : String :=
  let kn := normalizeKeywordsNum keywords_num
  let qn := if query_num ≠ 0 then query_num else kn
  buildKeywordPrompt kn qn

/-- The plain-text fallback of `_generate_word_document`
(paper_search_service.py lines 1063–1065):
`f"{title}\n\n{content}\n\n生成时间: {timestamp}"`. -/
def renderDocFallbackText (content title ts : String) : String :=
  title ++ "\n\n" ++ content ++ "\n\n生成时间: " ++ ts

/-- `_generate_word_document` (paper_search_service.py lines 967–1065).  The
whole docx assembly (headings, citation scanning, reference list, in-memory
save) happens inside one `try` and every touched API belongs to the external
python-docx collaborator, so it is modelled as `render content title papers`
yielding either the document bytes or an exception; the `except` branch
returns the UTF-8 encoding of the plain-text fallback instead of
propagating. -/
def generate_word_document (render : String → String → List Paper → Except String ByteArray)
    (content title : String) (papers : List Paper) (ts : String) : ByteArray :=
  match render content title papers with
  | .ok b => b
  | .error _ => (renderDocFallbackText content title ts).toUTF8

/-! Concrete fixtures used to evaluate the functions above on explicit
inputs. -/

/-- A fresh survey job as the worker receives it in its WorkItem payload. -/
def srC1 : PaperSurveyRecord :=
  { id := "j1", tenant_id := "t1", user_id := "alice", search_record_id := "r1",
    survey_content := "", survey_title := "文献综述", status := "pending",
    progress := 0, progress_msg := "等待处理", task_id := "task-j1" }

/-- A single paper in that job. -/
def paperC1 : Paper :=
  { uid := "d1", title := "Paper One", abstract := "abstract one",
    source := "RAGFlow知识库", selected := true, similarity := 9/10,
    doc_id := "d1", kb_id := "k1", full_content := "full text one" }

/-- A survey record that has already reached `completed`. -/
def completedRec : PaperSurveyRecord :=
  { id := "c1", tenant_id := "t1", user_id := "alice", search_record_id := "r1",
    survey_content := "已完成的综述", survey_title := "文献综述", status := "completed",
    progress := 1, progress_msg := "已完成", task_id := "task-c1" }

/-- The WorkItem payload snapshot of that same job, as it was at submission
time. -/
def srC2 : PaperSurveyRecord :=
  { completedRec with
    status := "pending",
    survey_content := "",
    progress := 0,
    progress_msg := "等待处理" }

/-- A survey record freshly created by the submission endpoint, before
queueing. -/
def srC3 : PaperSurveyRecord :=
  { id := "s3", tenant_id := "t1", user_id := "alice", search_record_id := "r3",
    survey_content := "", survey_title := "T3", status := "pending",
    progress := 0, progress_msg := "等待处理", task_id := "" }

/-- A fresh job used to exercise the synthesis-failure path. -/
def srC4 : PaperSurveyRecord :=
  { id := "s4", tenant_id := "t1", user_id := "alice", search_record_id := "r4",
    survey_content := "", survey_title := "T4", status := "pending",
    progress := 0, progress_msg := "等待处理", task_id := "task-s4" }

/-- A paper for the failure-path job. -/
def paperC4 : Paper :=
  { uid := "d4", title := "Paper Four", abstract := "abstract four",
    source := "RAGFlow知识库", selected := true, similarity := 4/5,
    doc_id := "d4", kb_id := "k4", full_content := "" }

/-- A fresh two-paper job used to observe the write trace of a successful
run. -/
def srC5 : PaperSurveyRecord :=
  { id := "s5", tenant_id := "t1", user_id := "alice", search_record_id := "r5",
    survey_content := "", survey_title := "T5", status := "pending",
    progress := 0, progress_msg := "等待处理", task_id := "task-s5" }

/-- First paper of the two-paper job. -/
def paperA : Paper :=
  { uid := "dA", title := "Paper A", abstract := "abstract A",
    source := "RAGFlow知识库", selected := true, similarity := 7/10,
    doc_id := "dA", kb_id := "kA", full_content := "full text A" }

/-- Second paper of the two-paper job. -/
def paperB : Paper :=
  { uid := "dB", title := "Paper B", abstract := "abstract B",
    source := "RAGFlow知识库", selected := true, similarity := 3/5,
    doc_id := "dB", kb_id := "kB", full_content := "full text B" }

/-- A survey owned by user `alice` of tenant `tenantA`. -/
def aliceSurvey : PaperSurveyRecord :=
  { id := "s6", tenant_id := "tenantA", user_id := "alice", search_record_id := "r6",
    survey_content := "机密综述内容", survey_title := "T6", status := "completed",
    progress := 1, progress_msg := "已完成", task_id := "task-s6" }

/-- A survey record currently in the `processing` state. -/
def processingRec : PaperSurveyRecord :=
  { id := "s7", tenant_id := "tA", user_id := "alice", search_record_id := "r7",
    survey_content := "", survey_title := "T7", status := "processing",
    progress := 1/2, progress_msg := "处理中", task_id := "task-s7" }

/-- A successfully extracted keyword bundle. -/
def kwDemo : KeywordBundle :=
  { keyword_en := ["deep learning"], keyword_cn := ["深度学习"],
    searchquery_en := ["deep learning survey"], searchquery_cn := ["深度学习综述"],
    time_range := [] }

/-- A search record at creation time, before the retrieval stage mutates
it. -/
def rowDemo : SearchRecordRow :=
  { id := "sr8", tenant_id := "t8", user_id := "u8", query := "深度学习",
    keywords := none, search_results := [], result_count := 0 }

/-! Helper lemmas. -/

/-- A guarded per-id `status := "failed"` update leaves a table without that
id unchanged. -/
theorem map_applyFailed_absent (l : SurveyDb) (id : String)
    (h : ∀ r ∈ l, r.id ≠ id) : l.map (applyFailed id) = l := by
  induction l with
  | nil => rfl
  | cons a t ih =>
      have ha : a.id ≠ id := h a (List.mem_cons_self a t)
      simp only [List.map_cons, applyFailed, if_neg ha,
        ih (fun r hr => h r (List.mem_cons_of_mem a hr))]

/-- Looking up an id after the guarded per-id pending update is the lookup
before it, with the update applied to the hit. -/
theorem find?_map_queuePendingUpdate (l : SurveyDb) (sid taskId : String) :
    (l.map (fun r => if r.id = sid then queuePendingUpdate taskId r else r)).find?
        (fun x => x.id == sid)
      = (l.find? (fun x => x.id == sid)).map (queuePendingUpdate taskId) := by
  induction l with
  | nil => rfl
  | cons a t ih =>
      by_cases h : a.id = sid
      · rw [List.map_cons, if_pos h,
          List.find?_cons_of_pos _ (by simp [queuePendingUpdate, h]),
          List.find?_cons_of_pos _ (by simp [h])]
        rfl
      · rw [List.map_cons, if_neg h,
          List.find?_cons_of_neg _ (by simp [h]),
          List.find?_cons_of_neg _ (by simp [h])]
        exact ih

/-- The table a run of `generate_survey` leaves behind is exactly the fold of
the writes it reports, so the `ops` trace is a faithful account of its
effects. -/
theorem generate_survey_db_is_fold_of_ops (db : SurveyDb) (sr : PaperSurveyRecord)
    (papers : List Paper) (co : String → String)
    (so : String → String → Except String String)
    (sy : List (String × String) → Except String String) :
    (generate_survey db sr papers co so sy).db
      = (generate_survey db sr papers co so sy).ops.foldl DbOp.apply db := by
  unfold generate_survey
  by_cases h : db.any (fun x => x.id == sr.id)
  · simp [h]
  · simp only [h, Bool.false_eq_true, if_false]
    cases sy ((papers.map (fillFullContent co)).map
        (fun p => (p.title, generate_paper_summary so p))) <;>
      simp [DbOp.apply]

/-! Claim theorems. -/

/-- C1: `generate_survey` performs no cancellation check at any checkpoint.
Its write trace on the survey table is exactly a create followed by one
unconditional final update, so when the owner's cancel request lands between
those two writes — the record's persisted status is then `cancelled` — the
worker's final write still transitions the job out of `cancelled` to
`completed`, contradicting the claim that a cancelled job is never
overwritten with completed/failed. -/
theorem generate_survey_overwrites_cancelled :
    (generate_survey [] srC1 [paperC1] (fun _ => "") (fun _ _ => Except.ok "简报")
        (fun _ => Except.ok "最终综述")).ops
      = [DbOp.create srC1, DbOp.updateCompleted "j1" "最终综述"] ∧
    (cancel_survey (DbOp.apply [] (DbOp.create srC1)) "j1" "alice").1 = CancelResult.ok ∧
    statusOf (cancel_survey (DbOp.apply [] (DbOp.create srC1)) "j1" "alice").2 "j1"
      = some "cancelled" ∧
    statusOf (DbOp.apply (cancel_survey (DbOp.apply [] (DbOp.create srC1)) "j1" "alice").2
        (DbOp.updateCompleted "j1" "最终综述")) "j1" = some "completed" := by
  decide

/-- C2 counterexample: re-delivering the WorkItem of an already-completed job
is not a graceful no-op and involves no status check — `generate_survey`
unconditionally re-creates the record, and the duplicate-id insert raises an
exception that propagates to its caller (the record is indeed left unchanged
and no model call is made, but not because the state was checked). -/
theorem generate_survey_redelivery_not_graceful :
    exOk (generate_survey [completedRec] srC2 [paperC1] (fun _ => "")
        (fun _ _ => Except.ok "简报") (fun _ => Except.ok "新综述")).outcome = false ∧
    (generate_survey [completedRec] srC2 [paperC1] (fun _ => "")
        (fun _ _ => Except.ok "简报") (fun _ => Except.ok "新综述")).db = [completedRec] ∧
    (generate_survey [completedRec] srC2 [paperC1] (fun _ => "")
        (fun _ _ => Except.ok "简报") (fun _ => Except.ok "新综述")).llmCalls = 0 := by
  decide

/-- C2 (amended): whenever a record with the job's id already exists — in
particular when the job is already completed — re-running `generate_survey`
changes no record, makes no model call, and raises the duplicate-insert
error to the caller instead of returning normally. -/
theorem generate_survey_redelivery_amended (db : SurveyDb) (sr : PaperSurveyRecord)
    (papers : List Paper) (co : String → String)
    (so : String → String → Except String String)
    (sy : List (String × String) → Except String String)
    (h : db.any (fun x => x.id == sr.id) = true) :
    (generate_survey db sr papers co so sy).db = db ∧
    (generate_survey db sr papers co so sy).llmCalls = 0 ∧
    exOk (generate_survey db sr papers co so sy).outcome = false := by
  simp [generate_survey, h, exOk]

/-- C2 witness: the amended statement evaluated on a concrete completed
record. -/
theorem generate_survey_redelivery_amended_check :
    (generate_survey [completedRec] srC2 [] (fun _ => "")
        (fun _ _ => Except.ok "简报") (fun _ => Except.ok "新综述")).db = [completedRec] :=
  (generate_survey_redelivery_amended [completedRec] srC2 [] (fun _ => "")
    (fun _ _ => Except.ok "简报") (fun _ => Except.ok "新综述") (by decide)).1

/-- C3 counterexample: when the Redis push fails, the submission is *not*
rolled back — the error does surface, but the survey record is left in
status `pending` with no WorkItem in the queue and the Task row still
inserted, exactly the orphaned state the claim says cannot occur. -/
theorem queue_survey_task_orphan_counterexample :
    exOk (queue_survey_task false "t3" "08:00:00"
        { tasks := [], surveys := [srC3], queue := [] } srC3 [] 0).1 = false ∧
    statusOf (queue_survey_task false "t3" "08:00:00"
        { tasks := [], surveys := [srC3], queue := [] } srC3 [] 0).2.surveys "s3"
      = some "pending" ∧
    (queue_survey_task false "t3" "08:00:00"
        { tasks := [], surveys := [srC3], queue := [] } srC3 [] 0).2.queue = [] ∧
    (queue_survey_task false "t3" "08:00:00"
        { tasks := [], surveys := [srC3], queue := [] } srC3 [] 0).2.tasks ≠ [] := by
  decide

/-- C3 (amended): on enqueue failure `queue_survey_task` raises an error that
surfaces to the caller, but performs no rollback: the queue receives no
WorkItem, the Task row stays inserted, and the survey row keeps the
pending-state update it was just given. -/
theorem queue_survey_task_failure_no_rollback (taskId ts : String) (st : QueueState)
    (sr : PaperSurveyRecord) (papers : List Paper) (priority : ℤ) :
    exOk (queue_survey_task false taskId ts st sr papers priority).1 = false ∧
    (queue_survey_task false taskId ts st sr papers priority).2.queue = st.queue ∧
    (queue_survey_task false taskId ts st sr papers priority).2.tasks
      = st.tasks ++ [newSurveyTask taskId ts sr papers priority] ∧
    (queue_survey_task false taskId ts st sr papers priority).2.surveys.find?
        (fun x => x.id == sr.id)
      = (st.surveys.find? (fun x => x.id == sr.id)).map (queuePendingUpdate taskId) := by
  refine ⟨rfl, rfl, rfl, ?_⟩
  simpa [queue_survey_task] using find?_map_queuePendingUpdate st.surveys sr.id taskId

/-- C4: an exception inside the worker's try block — here the synthesis model
call — makes `generate_survey` re-raise after a single `status := "failed"`
write: the final table is the created record with only its status changed,
so in particular `survey_content` keeps the empty value it was submitted
with. -/
theorem generate_survey_failure_sets_failed_keeps_content
    (db : SurveyDb) (sr : PaperSurveyRecord) (papers : List Paper)
    (co : String → String) (so : String → String → Except String String) (msg : String)
    (hfresh : db.any (fun x => x.id == sr.id) = false)
    (hempty : sr.survey_content = "") :
    (generate_survey db sr papers co so (fun _ => Except.error msg)).outcome
      = Except.error msg ∧
    (generate_survey db sr papers co so (fun _ => Except.error msg)).db
      = db ++ [{ sr with status := "failed" }] ∧
    ∀ r ∈ (generate_survey db sr papers co so (fun _ => Except.error msg)).db,
      r.id = sr.id → r.status = "failed" ∧ r.survey_content = "" := by
  have habs : ∀ r ∈ db, r.id ≠ sr.id := by
    intro r hr
    have h' := (List.any_eq_false.mp hfresh) r hr
    simpa using h'
  have hdb : (generate_survey db sr papers co so (fun _ => Except.error msg)).db
      = db ++ [{ sr with status := "failed" }] := by
    simp only [generate_survey, hfresh, Bool.false_eq_true, if_false, DbOp.apply]
    rw [List.map_append, map_applyFailed_absent db sr.id habs]
    simp [applyFailed]
  refine ⟨by simp [generate_survey, hfresh], hdb, ?_⟩
  intro r hr hid
  rw [hdb] at hr
  rcases List.mem_append.mp hr with hr | hr
  · exact absurd hid (habs r hr)
  · rcases List.mem_singleton.mp hr with rfl
    exact ⟨rfl, hempty⟩

/-- C4 witness: the failure path evaluated on a concrete one-paper job with
an unreachable synthesis model. -/
theorem generate_survey_failure_check :
    (generate_survey [] srC4 [paperC4] (fun _ => "") (fun _ _ => Except.ok "简报")
        (fun _ => Except.error "模型后端不可达")).outcome = Except.error "模型后端不可达" ∧
    (generate_survey [] srC4 [paperC4] (fun _ => "") (fun _ _ => Except.ok "简报")
        (fun _ => Except.error "模型后端不可达")).db = [{ srC4 with status := "failed" }] :=
  ⟨(generate_survey_failure_sets_failed_keeps_content [] srC4 [paperC4] (fun _ => "")
      (fun _ _ => Except.ok "简报") "模型后端不可达" (by decide) rfl).1,
   (generate_survey_failure_sets_failed_keeps_content [] srC4 [paperC4] (fun _ => "")
      (fun _ _ => Except.ok "简报") "模型后端不可达" (by decide) rfl).2.1⟩

/-- C5: on a successful two-paper run the worker's complete write trace is
the initial create and the single final completed-update — no write at all
happens after the first or second paper summary, so the persisted progress
stays at its submission value 0 (never 1/2 or 1) and the progress message
never carries a paper title, contradicting the claimed per-summary
progress checkpoints. -/
theorem generate_survey_no_progress_checkpoints :
    (generate_survey [] srC5 [paperA, paperB] (fun _ => "")
        (fun _ _ => Except.ok "简报") (fun _ => Except.ok "综述正文")).ops
      = [DbOp.create srC5, DbOp.updateCompleted "s5" "综述正文"] ∧
    progressOf (generate_survey [] srC5 [paperA, paperB] (fun _ => "")
        (fun _ _ => Except.ok "简报") (fun _ => Except.ok "综述正文")).db "s5" = some 0 ∧
    ((generate_survey [] srC5 [paperA, paperB] (fun _ => "")
        (fun _ _ => Except.ok "简报") (fun _ => Except.ok "综述正文")).db.find?
        (fun r => r.id == "s5")).map (fun r => r.progress_msg) = some "等待处理" := by
  decide

/-- C6: `get_survey` looks a survey up by id alone — it receives no requester
identity and applies no owner filter, and the route hands its result to any
authenticated caller.  A job owned by `alice` of `tenantA` is therefore
returned in full (content included) to every requester, rather than behaving
as "not found" for non-owners as the claim requires. -/
theorem get_survey_ignores_ownership :
    get_survey [aliceSurvey] "s6"
      = some { id := "s6", tenant_id := "tenantA", user_id := "alice",
               search_record_id := "r6", survey_content := "机密综述内容",
               survey_title := "T6", status := "completed" } := by
  decide

/-- C7 counterexample: a delete issued by the owner while the job is in the
`processing` state succeeds and removes the record — the claim said it would
be rejected with the record unchanged. -/
theorem delete_survey_processing_deletes :
    delete_survey_record [processingRec] "s7" "alice" "tA" = (true, []) := by
  decide

/-- C7 (amended): deletion succeeds whenever the requester matches the
record's owning user and tenant, regardless of the job's status (including
`processing`), and every row with that id is removed. -/
theorem delete_survey_owner_always_succeeds (db : SurveyDb) (sid uid tid : String)
    (h : (db.find? (fun r => r.id == sid && r.user_id == uid && r.tenant_id == tid)).isSome
      = true) :
    (delete_survey_record db sid uid tid).1 = true ∧
    ∀ r ∈ (delete_survey_record db sid uid tid).2, r.id ≠ sid := by
  rcases hf : db.find? (fun r => r.id == sid && r.user_id == uid && r.tenant_id == tid)
    with _ | r0
  · rw [hf] at h
    simp at h
  · constructor
    · simp [delete_survey_record, hf]
    · intro r hr
      simp only [delete_survey_record, hf] at hr
      have := (List.mem_filter.mp hr).2
      simpa using this

/-- C7 witness: the amended statement evaluated on the concrete processing
record. -/
theorem delete_survey_owner_always_succeeds_check :
    (delete_survey_record [processingRec] "s7" "alice" "tA").1 = true :=
  (delete_survey_owner_always_succeeds [processingRec] "s7" "alice" "tA" (by decide)).1

/-- C8: once extraction has produced a bundle, the retrieval stage cannot
lose it: with an empty knowledge-base union, or with a retrieval backend
that raises, `search_papers` returns an empty paper list while the extracted
keywords are still returned to the caller and persisted on the search
record (whose stored results and count stay consistent at zero). -/
theorem search_papers_degrades_to_empty (kw : KeywordBundle)
    (userKbIds publicKbIds : List String) (retr : Except String (List Chunk))
    (docLookup : String → Option DocInfo) (row : SearchRecordRow)
    (h : userKbIds ++ publicKbIds = [] ∨ exOk retr = false) :
    (search_papers kw userKbIds publicKbIds retr docLookup row).1.papers = [] ∧
    (search_papers kw userKbIds publicKbIds retr docLookup row).1.keywords = kw ∧
    (search_papers kw userKbIds publicKbIds retr docLookup row).2.keywords = some kw ∧
    (search_papers kw userKbIds publicKbIds retr docLookup row).2.search_results = [] ∧
    (search_papers kw userKbIds publicKbIds retr docLookup row).2.result_count = 0 := by
  have hpapers : retrievedPapers userKbIds publicKbIds retr docLookup = [] := by
    unfold retrievedPapers
    rcases h with h | h
    · simp [h]
    · cases retr with
      | ok _ => simp [exOk] at h
      | error _ =>
          by_cases he : (userKbIds ++ publicKbIds).isEmpty <;> simp [he]
  simp [search_papers, hpapers]

/-- C8 witness: the degradation evaluated with no accessible knowledge
bases. -/
theorem search_papers_degrades_check :
    (search_papers kwDemo [] [] (Except.ok []) (fun _ => none) rowDemo).1.papers = [] ∧
    (search_papers kwDemo [] [] (Except.ok []) (fun _ => none) rowDemo).2.keywords
      = some kwDemo := by
  have h := search_papers_degrades_to_empty kwDemo [] [] (Except.ok [])
    (fun _ => none) rowDemo (Or.inl rfl)
  exact ⟨h.1, h.2.2.1⟩

/-- C9: the keyword count interpolated into the extraction prompt is the
clamp of line 633 — for 1 < k ≤ 12 the prompt requests exactly k keywords,
and for any k outside that range it requests the default 5. -/
theorem extract_keywords_count_clamp (k q : ℤ) :
    ((1 < k ∧ k ≤ 12) → normalizeKeywordsNum k = k ∧
        extract_keywords_prompt k q = buildKeywordPrompt k (if q ≠ 0 then q else k)) ∧
    ((k ≤ 1 ∨ 12 < k) → normalizeKeywordsNum k = 5 ∧
        extract_keywords_prompt k q = buildKeywordPrompt 5 (if q ≠ 0 then q else 5)) := by
  constructor
  · rintro ⟨h1, h2⟩
    have hn : normalizeKeywordsNum k = k := by
      unfold normalizeKeywordsNum
      rw [if_pos ⟨by omega, by omega⟩]
    exact ⟨hn, by unfold extract_keywords_prompt; rw [hn]⟩
  · intro h
    have hc : ¬(12 ≥ k ∧ k > 1) := by
      rcases h with h | h <;> (intro hk; omega)
    have hn : normalizeKeywordsNum k = 5 := by
      unfold normalizeKeywordsNum
      rw [if_neg hc]
    exact ⟨hn, by unfold extract_keywords_prompt; rw [hn]⟩

/-- C9 witness: the clamp evaluated at an in-range count (7) and an
out-of-range count (20). -/
theorem extract_keywords_count_clamp_check :
    (normalizeKeywordsNum 7 = 7 ∧
      extract_keywords_prompt 7 9 = buildKeywordPrompt 7 (if (9 : ℤ) ≠ 0 then 9 else 7)) ∧
    (normalizeKeywordsNum 20 = 5 ∧
      extract_keywords_prompt 20 0 = buildKeywordPrompt 5 (if (0 : ℤ) ≠ 0 then 0 else 5)) :=
  ⟨(extract_keywords_count_clamp 7 9).1 (by decide),
   (extract_keywords_count_clamp 20 0).2 (by decide)⟩

/-- C10: whenever the docx rendering raises, `_generate_word_document`
returns the UTF-8 bytes of the title/content/timestamp plain-text fallback
instead of propagating the exception, so the function always yields bytes. -/
theorem generate_word_document_fallback
    (render : String → String → List Paper → Except String ByteArray)
    (content title : String) (papers : List Paper) (ts : String)
    (h : exOk (render content title papers) = false) :
    generate_word_document render content title papers ts
      = (renderDocFallbackText content title ts).toUTF8 := by
  cases hr : render content title papers with
  | ok b =>
      rw [hr] at h
      simp [exOk] at h
  | error e => simp [generate_word_document, hr]

/-- C10 witness: the fallback evaluated on a concrete failing renderer; the
produced byte string is non-empty. -/
theorem generate_word_document_fallback_check :
    generate_word_document (fun _ _ _ => Except.error "docx 渲染失败")
        "正文内容" "综述标题" [] "2026-10-12 00:00:00"
      = (renderDocFallbackText "正文内容" "综述标题" "2026-10-12 00:00:00").toUTF8 :=
  generate_word_document_fallback (fun _ _ _ => Except.error "docx 渲染失败")
    "正文内容" "综述标题" [] "2026-10-12 00:00:00" rfl

end CosmoSearch
